import Mathlib

/-!
Shallow embedding of the tempo-budget access-control core
(src/backend/src/auth.rs, handlers/invitations.rs, handlers/budget_members.rs,
handlers/budgets.rs) and proofs of the specification claims.

The SQLite store is modelled as lists of rows; each SQL statement of a handler
is translated in order.  `fetch_one` on a row lookup fails exactly when no row
matches (mapped to the same status code the Rust code maps the error to).
Write statements (`execute`) can fail at the storage layer; this is modelled by
an oracle `orac : Nat → Bool` giving the success of the k-th write statement of
the handler, so that the non-atomicity of multi-write handlers is observable.
`allOk` is the oracle under which every storage write succeeds.
-/

deriving instance DecidableEq for Except

namespace TempoBudget

/-- HTTP status codes used by the handlers (axum `StatusCode` values). -/
inductive StatusCode where
  | ok
  | created
  | noContent
  | badRequest
  | unauthorized
  | forbidden
  | notFound
  | conflict
  | internalServerError
deriving DecidableEq, Repr

/-- Errors of the jsonwebtoken `decode` call (`verify_token`). -/
inductive JwtError where
  | invalidSignature
  | expiredSignature
  | malformed
deriving DecidableEq, Repr

/-- Row of the `users` table (models/user.rs `User`; only the fields the
access-control core reads). -/
structure User where
  id : String
  email : String
  name : String
deriving DecidableEq, Repr

/-- Row of the `budgets` table (models/budget.rs `Budget`). -/
structure Budget where
  id : String
  user_id : String
  name : String
  budget_type : String
  is_active : Nat
  created_at : String
  updated_at : String
deriving DecidableEq, Repr

/-- Row of the `budget_members` table (models/budget_member.rs `BudgetMember`). -/
structure BudgetMember where
  id : String
  budget_id : String
  user_id : String
  role : String
  created_at : String
deriving DecidableEq, Repr

/-- Row of the `budget_invitations` table (models/invitation.rs
`BudgetInvitation`). -/
structure BudgetInvitation where
  id : String
  budget_id : String
  inviter_id : String
  invitee_email : String
  role : String
  status : String
  created_at : String
deriving DecidableEq, Repr

/-- models/invitation.rs `BudgetInvitationWithDetails` (join view). -/
structure BudgetInvitationWithDetails where
  id : String
  budget_id : String
  budget_name : String
  inviter_id : String
  inviter_name : String
  invitee_email : String
  role : String
  status : String
  created_at : String
deriving DecidableEq, Repr

/-- models/budget_member.rs `InviteMemberRequest` (request body of
`POST /api/budgets/:budget_id/members`). -/
structure InviteMemberRequest where
  email : String
  role : String
deriving DecidableEq, Repr

/-- models/budget.rs `CreateBudget` (request body of `POST /api/budgets`). -/
structure CreateBudget where
  name : String
  budget_type : String
deriving DecidableEq, Repr

/-- The persistent store: the four tables the access-control core touches. -/
structure Db where
  users : List User
  budgets : List Budget
  budget_members : List BudgetMember
  budget_invitations : List BudgetInvitation
deriving DecidableEq, Repr

/-- Storage-write oracle under which every `execute` succeeds. -/
def allOk : Nat → Bool := fun _ => true

/-! ## Token Codec (auth.rs `create_token` / `verify_token`)

JWTs are modelled symbolically: a syntactically well-formed token carries its
claims and the secret whose HMAC produced its signature; any other string on
the wire is a `garbage` token.  jsonwebtoken's `Validation::default()` has
`validate_exp = true` and `leeway = 60`, so a token is expired exactly when
`exp < now - leeway`, i.e. `exp + 60 < now`. -/

/-- auth.rs `Claims`: `{sub, exp}`. `exp` is a Unix timestamp in seconds. -/
structure Claims where
  sub : String
  exp : Nat
deriving DecidableEq, Repr

/-- A string presented as a token on the wire: either a well-formed JWT whose
signature was produced with `secret`, or an unparsable string. -/
inductive TokenWire where
  | jwt (claims : Claims) (secret : String)
  | garbage (s : String)
deriving DecidableEq, Repr

/-- auth.rs `create_token`: signs `{sub := user_id, exp := now + 24h}` with the
process-wide secret. `now` is the Unix time of the call. -/
def create_token (secret : String) (now : Nat) (user_id : String) : TokenWire :=
  .jwt { sub := user_id, exp := now + 24 * 3600 } secret

/-- auth.rs `verify_token`: decodes the token against the process-wide secret
with `Validation::default()`.  Takes no user store — validity is purely a
function of signature and expiry. -/
def verify_token (secret : String) (now : Nat) (tok : TokenWire) :
    Except JwtError Claims :=
  match tok with
  | .garbage _ => .error .malformed
  | .jwt c k =>
    if k ≠ secret then .error .invalidSignature
    else if c.exp + 60 < now then .error .expiredSignature
    else .ok c

/-! ## Identity Extractor (auth.rs `AuthUser::from_request_parts`) -/

/-- auth.rs `AuthUser`: the identity a handler receives. -/
structure AuthUser where
  user_id : String
deriving DecidableEq, Repr

/-- The `Authorization` header value: either `Bearer <token>` or a value not
using the Bearer scheme (a header that is not valid ASCII behaves like an
absent header in the source, via `to_str().ok()`). -/
inductive AuthHeader where
  | bearer (tok : TokenWire)
  | otherScheme (s : String)
deriving DecidableEq, Repr

/-- The request parts the extractor inspects. -/
structure RequestParts where
  authorization : Option AuthHeader
deriving DecidableEq, Repr

/-- auth.rs `from_request_parts`: missing header, non-Bearer scheme and failed
verification all map to `UNAUTHORIZED`; on success the subject claim becomes
`AuthUser.user_id`. -/
def from_request_parts (secret : String) (now : Nat) (parts : RequestParts) :
    Except StatusCode AuthUser :=
  match parts.authorization with
  | none => .error .unauthorized
  | some (.otherScheme _) => .error .unauthorized
  | some (.bearer tok) =>
    match verify_token secret now tok with
    | .error _ => .error .unauthorized
    | .ok claims => .ok { user_id := claims.sub }

/-! ## SQL row lookups and counts used by the handlers -/

/-- `SELECT ... FROM users WHERE id = ?` with `fetch_one` (first matching row). -/
def usersById (db : Db) (uid : String) : Option User :=
  db.users.find? (fun u => u.id = uid)

/-- `SELECT ... FROM budget_invitations WHERE id = ?` with `fetch_one`. -/
def invitationsById (db : Db) (iid : String) : Option BudgetInvitation :=
  db.budget_invitations.find? (fun i => i.id = iid)

/-- `SELECT COUNT(*) FROM budget_members WHERE budget_id = ? AND user_id = ?
AND role = 'owner'`. -/
def ownerCount (db : Db) (bid uid : String) : Nat :=
  (db.budget_members.filter
    (fun m => m.budget_id = bid ∧ m.user_id = uid ∧ m.role = "owner")).length

/-- `SELECT COUNT(*) FROM budget_members WHERE budget_id = ? AND user_id = ?`. -/
def memberCount (db : Db) (bid uid : String) : Nat :=
  (db.budget_members.filter
    (fun m => m.budget_id = bid ∧ m.user_id = uid)).length

/-- `SELECT COUNT(*) FROM users WHERE email = ?`. -/
def usersByEmailCount (db : Db) (email : String) : Nat :=
  (db.users.filter (fun u => u.email = email)).length

/-- `SELECT COUNT(*) FROM budget_members bm JOIN users u ON bm.user_id = u.id
WHERE bm.budget_id = ? AND u.email = ?` — counts join pairs. -/
def memberByEmailCount (db : Db) (bid email : String) : Nat :=
  (db.budget_members.flatMap (fun m =>
    db.users.filter (fun u =>
      m.user_id = u.id ∧ m.budget_id = bid ∧ u.email = email))).length

/-! ## Invitation handlers (handlers/invitations.rs) -/

/-- handlers/invitations.rs `get_my_invitations` (`GET /api/invitations`):
resolves the caller's email (`fetch_one`; a missing user maps to
`INTERNAL_SERVER_ERROR`), then returns the pending invitations addressed to
that email joined with budget name and inviter name. -/
def get_my_invitations (db : Db) (auth : AuthUser) :
    Except StatusCode (List BudgetInvitationWithDetails) :=
  match usersById db auth.user_id with
  | none => .error .internalServerError
  | some user =>
    .ok ((db.budget_invitations.filter
        (fun i => i.invitee_email = user.email ∧ i.status = "pending")).filterMap
      (fun i =>
        match db.budgets.find? (fun b => b.id = i.budget_id),
              usersById db i.inviter_id with
        | some b, some inviter =>
          some { id := i.id, budget_id := i.budget_id, budget_name := b.name,
                 inviter_id := i.inviter_id, inviter_name := inviter.name,
                 invitee_email := i.invitee_email, role := i.role,
                 status := i.status, created_at := i.created_at }
        | _, _ => none))

/-- handlers/invitations.rs `accept_invitation`
(`POST /api/invitations/:id/accept`).  `member_id` and `now` stand for the
freshly generated `Uuid::new_v4()` and `Utc::now()` of the call.  The result
pairs the handler's `Result` with the store after the call, so that partial
writes are observable. -/
def accept_invitation (db : Db) (orac : Nat → Bool) (auth : AuthUser)
    (invitation_id member_id now : String) :
    Except StatusCode StatusCode × Db :=
  match invitationsById db invitation_id with
  | none => (.error .notFound, db)
  | some inv =>
    if inv.status ≠ "pending" then (.error .badRequest, db)
    else
      match usersById db auth.user_id with
      | none => (.error .internalServerError, db)
      | some user =>
        if user.email ≠ inv.invitee_email then (.error .forbidden, db)
        else if orac 0 = false then (.error .internalServerError, db)
        else
          let db1 : Db :=
            { db with budget_members := db.budget_members ++
                [{ id := member_id, budget_id := inv.budget_id,
                   user_id := auth.user_id, role := inv.role,
                   created_at := now }] }
          if orac 1 = false then (.error .internalServerError, db1)
          else
            let invs := db1.budget_invitations.map
              (fun i => if i.id = invitation_id
                        then { i with status := "accepted" } else i)
            (.ok .ok, { db1 with budget_invitations := invs })

/-- handlers/invitations.rs `reject_invitation`
(`POST /api/invitations/:id/reject`): same lookup and precondition order as
`accept_invitation`; sole side effect is setting the status to "rejected". -/
def reject_invitation (db : Db) (orac : Nat → Bool) (auth : AuthUser)
    (invitation_id : String) : Except StatusCode StatusCode × Db :=
  match invitationsById db invitation_id with
  | none => (.error .notFound, db)
  | some inv =>
    if inv.status ≠ "pending" then (.error .badRequest, db)
    else
      match usersById db auth.user_id with
      | none => (.error .internalServerError, db)
      | some user =>
        if user.email ≠ inv.invitee_email then (.error .forbidden, db)
        else if orac 0 = false then (.error .internalServerError, db)
        else
          let invs := db.budget_invitations.map
            (fun i => if i.id = invitation_id
                      then { i with status := "rejected" } else i)
          (.ok .ok, { db with budget_invitations := invs })

/-! ## Budget member handlers (handlers/budget_members.rs) -/

/-- handlers/budget_members.rs `invite_member`
(`POST /api/budgets/:budget_id/members`).  `new_id` and `now` stand for the
generated invitation id and timestamp.  The stored role is the request's role
string, bound verbatim. -/
def invite_member (db : Db) (orac : Nat → Bool) (auth : AuthUser)
    (budget_id : String) (payload : InviteMemberRequest) (new_id now : String) :
    Except StatusCode StatusCode × Db :=
  if ownerCount db budget_id auth.user_id = 0 then (.error .forbidden, db)
  else if usersByEmailCount db payload.email = 0 then (.error .notFound, db)
  else if memberByEmailCount db budget_id payload.email > 0 then
    (.error .conflict, db)
  else if orac 0 = false then (.error .internalServerError, db)
  else
    (.ok .created,
     { db with budget_invitations := db.budget_invitations ++
         [{ id := new_id, budget_id := budget_id, inviter_id := auth.user_id,
            invitee_email := payload.email, role := payload.role,
            status := "pending", created_at := now }] })

/-- handlers/budget_members.rs `remove_member`
(`DELETE /api/budgets/:budget_id/members/:member_id`): Owner check, then
`DELETE FROM budget_members WHERE id = ? AND budget_id = ?` — the delete
succeeds (204) whether or not any row matched. -/
def remove_member (db : Db) (orac : Nat → Bool) (auth : AuthUser)
    (budget_id member_id : String) : Except StatusCode StatusCode × Db :=
  if ownerCount db budget_id auth.user_id = 0 then (.error .forbidden, db)
  else if orac 0 = false then (.error .internalServerError, db)
  else
    let remaining := db.budget_members.filter
      (fun m => ¬(m.id = member_id ∧ m.budget_id = budget_id))
    (.ok .noContent, { db with budget_members := remaining })

/-! ## Budget creation (handlers/budgets.rs `create_budget`) -/

/-- handlers/budgets.rs `create_budget` (`POST /api/budgets`): inserts the
budget row; for `budget_type = "group"` additionally inserts the creator's
Membership with role `'owner'`; finally re-fetches the created budget.
`new_budget_id` and `member_id` stand for the generated UUIDs. -/
def create_budget (db : Db) (orac : Nat → Bool) (auth : AuthUser)
    (payload : CreateBudget) (new_budget_id member_id now : String) :
    Except StatusCode Budget × Db :=
  if orac 0 = false then (.error .internalServerError, db)
  else
    let db1 : Db :=
      { db with budgets := db.budgets ++
          [{ id := new_budget_id, user_id := auth.user_id,
             name := payload.name, budget_type := payload.budget_type,
             is_active := 0, created_at := now, updated_at := now }] }
    if payload.budget_type = "group" then
      if orac 1 = false then (.error .internalServerError, db1)
      else
        let db2 : Db :=
          { db1 with budget_members := db1.budget_members ++
              [{ id := member_id, budget_id := new_budget_id,
                 user_id := auth.user_id, role := "owner", created_at := now }] }
        match db2.budgets.find? (fun b => b.id = new_budget_id) with
        | none => (.error .internalServerError, db2)
        | some b => (.ok b, db2)
    else
      match db1.budgets.find? (fun b => b.id = new_budget_id) with
      | none => (.error .internalServerError, db1)
      | some b => (.ok b, db1)

/-! ## Invariants and concrete stores used by the theorems -/

/-- The spec's Membership invariant: at most one Membership row per
`(budgetId, userId)` pair. -/
def MembershipUnique (db : Db) : Prop :=
  List.Pairwise
    (fun a b => ¬(a.budget_id = b.budget_id ∧ a.user_id = b.user_id))
    db.budget_members

instance : DecidablePred MembershipUnique := fun db => by
  unfold MembershipUnique; infer_instance

/-- Three registered users; no budgets, memberships or invitations yet. -/
def db0 : Db :=
  ⟨[⟨"o", "o@x", "O"⟩, ⟨"b", "b@x", "B"⟩, ⟨"c", "c@x", "C"⟩], [], [], []⟩

/-- User `o` creates the group budget `G` (becoming its Owner). -/
def s1 : Db := (create_budget db0 allOk ⟨"o"⟩ ⟨"Trip", "group"⟩ "G" "m0" "t0").2

/-- Owner `o` invites `b@x` as "member" (invitation `i1`). -/
def s2 : Db := (invite_member s1 allOk ⟨"o"⟩ "G" ⟨"b@x", "member"⟩ "i1" "t1").2

/-- Owner `o` invites `b@x` as "member" a second time (invitation `i2`);
nothing prevents duplicate pending invitations. -/
def s3 : Db := (invite_member s2 allOk ⟨"o"⟩ "G" ⟨"b@x", "member"⟩ "i2" "t2").2

/-- User `b` accepts invitation `i1`. -/
def s4 : Db := (accept_invitation s3 allOk ⟨"b"⟩ "i1" "m1" "t3").2

/-- User `b` accepts invitation `i2` as well. -/
def s5 : Db := (accept_invitation s4 allOk ⟨"b"⟩ "i2" "m2" "t4").2

/-- `s1` with user `b` additionally holding role "admin" on budget `G`. -/
def dbAdm : Db :=
  { s1 with budget_members := s1.budget_members ++ [⟨"mA", "G", "b", "admin", "tA"⟩] }

/-- A store holding a single already-accepted invitation addressed to `b@x`. -/
def dbNP : Db :=
  { db0 with budget_invitations := [⟨"i5", "G", "o", "b@x", "member", "accepted", "t"⟩] }

/-- Storage oracle under which the first write of a handler succeeds and the
second one fails. -/
def failSnd : Nat → Bool := fun k => k == 0

/-- The store after the Owner `o` invites `c@x` with role string "owner":
`invite_member` binds the request's role verbatim. -/
def dbOwnInv : Db := (invite_member s1 allOk ⟨"o"⟩ "G" ⟨"c@x", "owner"⟩ "i9" "t9").2

/-- An empty user store, standing for a store from which the token's subject
has been deleted. -/
def dbNoUsers : Db := ⟨[], [], [], []⟩

/-! ## Helper lemmas -/

/-- Searching the invitation table for an id after the status-update map finds
the same row (if any) with its status replaced: the update rewrites only the
`status` field, never the `id`. -/
theorem find?_after_setStatus (l : List BudgetInvitation) (iid s : String) :
    (l.map (fun i => if i.id = iid then { i with status := s } else i)).find?
        (fun i => i.id = iid) =
      (l.find? (fun i => i.id = iid)).map (fun i => { i with status := s }) := by
  induction l with
  | nil => rfl
  | cons hd tl ih =>
    by_cases h : hd.id = iid
    · simp [List.find?_cons, h]
    · simp [List.find?_cons, h, ih]

/-- The membership count for `(bid, uid)` is zero iff no Membership row has
that budget and user. -/
theorem memberCount_eq_zero_iff (db : Db) (bid uid : String) :
    memberCount db bid uid = 0 ↔
      ∀ m ∈ db.budget_members, ¬(m.budget_id = bid ∧ m.user_id = uid) := by
  simp [memberCount, List.length_eq_zero, List.filter_eq_nil_iff]

/-- `invite_member` never touches the `budget_members` table. -/
theorem invite_member_members_eq (db : Db) (orac : Nat → Bool) (a : AuthUser)
    (bid : String) (p : InviteMemberRequest) (nid now : String) :
    (invite_member db orac a bid p nid now).2.budget_members =
      db.budget_members := by
  unfold invite_member
  split
  · rfl
  · split
    · rfl
    · split
      · rfl
      · split <;> rfl

/-- `create_budget` either leaves `budget_members` unchanged or appends
exactly the creator's Owner row for the new budget id. -/
theorem create_budget_members_cases (db : Db) (orac : Nat → Bool)
    (a : AuthUser) (pay : CreateBudget) (nbid mid now : String) :
    (create_budget db orac a pay nbid mid now).2.budget_members =
      db.budget_members ∨
    (create_budget db orac a pay nbid mid now).2.budget_members =
      db.budget_members ++ [⟨mid, nbid, a.user_id, "owner", now⟩] := by
  unfold create_budget
  dsimp only
  split
  · left; rfl
  · split
    · split
      · left; rfl
      · split
        · right; rfl
        · right; rfl
    · split
      · left; rfl
      · left; rfl

/-- `accept_invitation` either leaves `budget_members` unchanged or appends
exactly one row carrying the found invitation's budget and role and the
caller's user id — with no check against existing memberships. -/
theorem accept_members_cases (db : Db) (orac : Nat → Bool) (a : AuthUser)
    (iid mid now : String) :
    (accept_invitation db orac a iid mid now).2.budget_members =
      db.budget_members ∨
    (∃ inv, invitationsById db iid = some inv ∧
      (accept_invitation db orac a iid mid now).2.budget_members =
        db.budget_members ++ [⟨mid, inv.budget_id, a.user_id, inv.role, now⟩]) := by
  unfold accept_invitation
  dsimp only
  split
  · left; rfl
  · rename_i inv heq
    split
    · left; rfl
    · split
      · left; rfl
      · split
        · left; rfl
        · split
          · left; rfl
          · split
            · right; exact ⟨inv, heq, rfl⟩
            · right; exact ⟨inv, heq, rfl⟩

/-! ## Claim theorems -/

/-- C1, counterexample: a sequence of successful create/invite/accept
operations produces TWO Membership rows for the same `(budgetId, userId)`
pair, refuting the claim that every Membership-creating operation preserves
uniqueness.  Owner `o` creates group budget `G`, invites `b@x` twice (the
second invite passes the already-member check because `b` is not yet a
member), and `b` accepts both pending invitations: `accept_invitation`
re-checks only the invitation's status, never the caller's membership. -/
theorem claim1_counterexample :
    (create_budget db0 allOk ⟨"o"⟩ ⟨"Trip", "group"⟩ "G" "m0" "t0").1 =
      .ok ⟨"G", "o", "Trip", "group", 0, "t0", "t0"⟩ ∧
    (invite_member s1 allOk ⟨"o"⟩ "G" ⟨"b@x", "member"⟩ "i1" "t1").1 = .ok .created ∧
    (invite_member s2 allOk ⟨"o"⟩ "G" ⟨"b@x", "member"⟩ "i2" "t2").1 = .ok .created ∧
    (accept_invitation s3 allOk ⟨"b"⟩ "i1" "m1" "t3").1 = .ok .ok ∧
    (accept_invitation s4 allOk ⟨"b"⟩ "i2" "m2" "t4").1 = .ok .ok ∧
    memberCount s5 "G" "b" = 2 ∧
    ¬ MembershipUnique s5 := by decide

/-- C1, amended: `invite_member` preserves Membership uniqueness (it creates
no Membership), `create_budget` preserves it when the generated budget id is
fresh, and `accept_invitation` preserves it only under the additional
precondition that the accepting caller is not already a member of the
invitation's budget — a precondition the code does not check, and which fails
when two pending invitations for the same `(budget, email)` are both
accepted. -/
theorem claim1_amended (db : Db) (orac : Nat → Bool) (a : AuthUser)
    (bid nbid mid mid2 iid nid now : String) (p : InviteMemberRequest)
    (pay : CreateBudget) (hdb : MembershipUnique db) :
    MembershipUnique (invite_member db orac a bid p nid now).2 ∧
    ((∀ m ∈ db.budget_members, m.budget_id ≠ nbid) →
      MembershipUnique (create_budget db orac a pay nbid mid now).2) ∧
    (∀ inv, invitationsById db iid = some inv →
      memberCount db inv.budget_id a.user_id = 0 →
      MembershipUnique (accept_invitation db orac a iid mid2 now).2) := by
  unfold MembershipUnique at *
  refine ⟨?_, ?_, ?_⟩
  · rw [invite_member_members_eq]; exact hdb
  · intro hfresh
    rcases create_budget_members_cases db orac a pay nbid mid now with hc | hc
    · rw [hc]; exact hdb
    · rw [hc]
      rw [List.pairwise_append]
      refine ⟨hdb, by simp, ?_⟩
      intro x hx y hy
      simp at hy
      subst hy
      intro hcontra
      exact hfresh x hx hcontra.1
  · intro inv hinv hcount
    rcases accept_members_cases db orac a iid mid2 now with hc | ⟨inv', hinv', hc⟩
    · rw [hc]; exact hdb
    · rw [hinv] at hinv'
      cases hinv'
      rw [hc]
      rw [List.pairwise_append]
      refine ⟨hdb, by simp, ?_⟩
      intro x hx y hy
      simp at hy
      subst hy
      intro hcontra
      have hnm := (memberCount_eq_zero_iff db inv.budget_id a.user_id).mp hcount x hx
      exact hnm ⟨hcontra.1, hcontra.2⟩

/-- C1, witness for the amended theorem: accepting invitation `i1` in store
`s3`, where `b` is not yet a member of `G`, preserves Membership
uniqueness. -/
theorem claim1_amended_witness :
    MembershipUnique (accept_invitation s3 allOk ⟨"b"⟩ "i1" "m1" "t3").2 :=
  (claim1_amended s3 allOk ⟨"b"⟩ "G" "X" "mx" "m1" "i1" "nx" "t3"
      ⟨"b@x", "member"⟩ ⟨"n", "group"⟩ (by decide)).2.2
    ⟨"i1", "G", "o", "b@x", "member", "pending", "t1"⟩ (by decide) (by decide)

/-- C2: the code contradicts its own documentation ("Role to assign: admin or
member (owner cannot be assigned)").  When the Owner supplies role string
"owner" in the request body, `invite_member` succeeds and stores the
invitation with role "owner" verbatim, and accepting that invitation creates
a Membership row with role "owner". -/
theorem claim2_bug_exhibit :
    (invite_member s1 allOk ⟨"o"⟩ "G" ⟨"c@x", "owner"⟩ "i9" "t9").1 = .ok .created ∧
    (invitationsById dbOwnInv "i9").map (fun i => i.role) = some "owner" ∧
    (accept_invitation dbOwnInv allOk ⟨"c"⟩ "i9" "m9" "t10").1 = .ok .ok ∧
    ((accept_invitation dbOwnInv allOk ⟨"c"⟩ "i9" "m9" "t10").2.budget_members.filter
      (fun m => m.user_id = "c" ∧ m.role = "owner")).length = 1 := by decide

/-- C3, counterexample: acceptance is not atomic.  With a storage failure on
the second write (the status update) after a successful first write (the
Membership insert), `accept_invitation` returns an error, yet the state is
NOT as if the acceptance never happened: the Membership row for `(G, b)`
exists and the invitation is still "pending". -/
theorem claim3_counterexample :
    (accept_invitation s3 failSnd ⟨"b"⟩ "i1" "m1" "t3").1 = .error .internalServerError ∧
    (accept_invitation s3 failSnd ⟨"b"⟩ "i1" "m1" "t3").2 ≠ s3 ∧
    memberCount (accept_invitation s3 failSnd ⟨"b"⟩ "i1" "m1" "t3").2 "G" "b" = 1 ∧
    (invitationsById (accept_invitation s3 failSnd ⟨"b"⟩ "i1" "m1" "t3").2 "i1").map
      (fun i => i.status) = some "pending" := by decide

/-- C3, amended: when no storage write fails mid-sequence (`allOk`),
acceptance is atomic — any error leaves the store unchanged, and a success
performs both the Membership insert and the status update to "accepted". -/
theorem claim3_amended_accept (db : Db) (a : AuthUser) (iid mid now : String) :
    (∀ e, (accept_invitation db allOk a iid mid now).1 = .error e →
      (accept_invitation db allOk a iid mid now).2 = db) ∧
    ((accept_invitation db allOk a iid mid now).1 = .ok .ok →
      ∀ inv, invitationsById db iid = some inv →
        (accept_invitation db allOk a iid mid now).2.budget_members =
          db.budget_members ++
            [{ id := mid, budget_id := inv.budget_id, user_id := a.user_id,
               role := inv.role, created_at := now }] ∧
        (accept_invitation db allOk a iid mid now).2.budget_invitations =
          db.budget_invitations.map
            (fun i => if i.id = iid then { i with status := "accepted" } else i)) := by
  unfold accept_invitation allOk
  cases hinv : invitationsById db iid with
  | none => simp
  | some inv =>
    by_cases hstat : inv.status ≠ "pending"
    · simp [hstat]
    · cases hu : usersById db a.user_id with
      | none => simp [hstat, hu]
      | some u =>
        by_cases hemail : u.email ≠ inv.invitee_email
        · simp [hstat, hu, hemail]
        · simp only [hstat, hu, hemail, if_false, if_neg, Bool.true_eq_false]
          constructor
          · intro e he
            simp [hstat, hemail] at he
          · intro _ inv' hinv'
            cases hinv'
            simp

/-- C3, witness for the amended theorem: the no-failure acceptance of `i1`
in `s3` performs both effects. -/
theorem claim3_amended_witness :
    (accept_invitation s3 allOk ⟨"b"⟩ "i1" "m1" "t3").2.budget_members =
      s3.budget_members ++ [⟨"m1", "G", "b", "member", "t3"⟩] ∧
    (accept_invitation s3 allOk ⟨"b"⟩ "i1" "m1" "t3").2.budget_invitations =
      s3.budget_invitations.map
        (fun i => if i.id = "i1" then { i with status := "accepted" } else i) :=
  (claim3_amended_accept s3 ⟨"b"⟩ "i1" "m1" "t3").2 (by decide)
    ⟨"i1", "G", "o", "b@x", "member", "pending", "t1"⟩ (by decide)

/-- C4: accepting a Pending invitation with role "member" as the user whose
email matches the invitation's invitee email succeeds, appends exactly one
Membership row `(budget, caller, "member")`, sets the invitation's status to
"accepted", and makes every subsequent accept call on that invitation — by
any caller — return BadRequest with the store unchanged. -/
theorem claim4_accept_pending (db : Db) (a : AuthUser) (iid mid now : String)
    (inv : BudgetInvitation) (u : User)
    (hinv : invitationsById db iid = some inv)
    (hpend : inv.status = "pending") (hrole : inv.role = "member")
    (hu : usersById db a.user_id = some u)
    (hemail : u.email = inv.invitee_email) :
    (accept_invitation db allOk a iid mid now).1 = .ok .ok ∧
    (accept_invitation db allOk a iid mid now).2.budget_members =
      db.budget_members ++
        [{ id := mid, budget_id := inv.budget_id, user_id := a.user_id,
           role := "member", created_at := now }] ∧
    (invitationsById (accept_invitation db allOk a iid mid now).2 iid).map
        (fun i => i.status) = some "accepted" ∧
    ∀ (a2 : AuthUser) (mid2 now2 : String),
      accept_invitation (accept_invitation db allOk a iid mid now).2 allOk
          a2 iid mid2 now2 =
        (.error .badRequest, (accept_invitation db allOk a iid mid now).2) := by
  have hrun : accept_invitation db allOk a iid mid now =
      (.ok .ok,
       { db with
          budget_members := (db.budget_members ++
            [{ id := mid, budget_id := inv.budget_id, user_id := a.user_id,
               role := inv.role, created_at := now }]),
          budget_invitations := (db.budget_invitations.map
            (fun i => if i.id = iid then { i with status := "accepted" } else i)) }) := by
    unfold accept_invitation allOk
    simp [hinv, hpend, hu, hemail]
  have hfound : invitationsById (accept_invitation db allOk a iid mid now).2 iid =
      some { inv with status := "accepted" } := by
    rw [hrun]
    show (db.budget_invitations.map
        (fun i => if i.id = iid then { i with status := "accepted" } else i)).find?
        (fun i => i.id = iid) = some { inv with status := "accepted" }
    rw [find?_after_setStatus]
    rw [show db.budget_invitations.find? (fun i => i.id = iid) = some inv from hinv]
    rfl
  refine ⟨by rw [hrun], by rw [hrun, hrole], ?_, ?_⟩
  · rw [hfound]; rfl
  · intro a2 mid2 now2
    rw [hrun] at hfound ⊢
    unfold accept_invitation
    rw [hfound]
    simp

/-- C4, witness: user `b` accepts the pending invitation `i1` in `s2`; the
call succeeds and a repeated accept by another caller yields BadRequest. -/
theorem claim4_witness :
    (accept_invitation s2 allOk ⟨"b"⟩ "i1" "m1" "t3").1 = .ok .ok ∧
    accept_invitation (accept_invitation s2 allOk ⟨"b"⟩ "i1" "m1" "t3").2 allOk
        ⟨"c"⟩ "i1" "m2" "t4" =
      (.error .badRequest, (accept_invitation s2 allOk ⟨"b"⟩ "i1" "m1" "t3").2) := by
  have h := claim4_accept_pending s2 ⟨"b"⟩ "i1" "m1" "t3"
    ⟨"i1", "G", "o", "b@x", "member", "pending", "t1"⟩ ⟨"b", "b@x", "B"⟩
    (by decide) (by decide) (by decide) (by decide) (by decide)
  exact ⟨h.1, h.2.2.2 ⟨"c"⟩ "m2" "t4"⟩

/-- C5: `invite_member`'s checks in order — no Membership row with the exact
role "owner" for the caller gives Forbidden (an Admin member is refused); an
Owner caller inviting an email with no matching User gives NotFound; an Owner
inviting an email that already belongs to a member gives Conflict; and only
when none of these hold is a Pending invitation inserted. -/
theorem claim5_invite_errors (db : Db) (a : AuthUser) (bid : String)
    (p : InviteMemberRequest) (nid now : String) :
    (ownerCount db bid a.user_id = 0 →
      invite_member db allOk a bid p nid now = (.error .forbidden, db)) ∧
    (ownerCount db bid a.user_id ≠ 0 → usersByEmailCount db p.email = 0 →
      invite_member db allOk a bid p nid now = (.error .notFound, db)) ∧
    (ownerCount db bid a.user_id ≠ 0 → usersByEmailCount db p.email ≠ 0 →
      memberByEmailCount db bid p.email > 0 →
      invite_member db allOk a bid p nid now = (.error .conflict, db)) ∧
    (ownerCount db bid a.user_id ≠ 0 → usersByEmailCount db p.email ≠ 0 →
      ¬(memberByEmailCount db bid p.email > 0) →
      invite_member db allOk a bid p nid now =
        (.ok .created,
         { db with budget_invitations := (db.budget_invitations ++
             [{ id := nid, budget_id := bid, inviter_id := a.user_id,
                invitee_email := p.email, role := p.role,
                status := "pending", created_at := now }]) })) := by
  refine ⟨?_, ?_, ?_, ?_⟩ <;> intros <;> simp [invite_member, allOk, *]

/-- C5, witness: in `dbAdm` the caller `b` holds role "admin" (not "owner")
on budget `G`, and the invite is refused with Forbidden — the owner check is
an exact role match. -/
theorem claim5_witness :
    invite_member dbAdm allOk ⟨"b"⟩ "G" ⟨"c@x", "member"⟩ "i7" "t7" =
      (.error .forbidden, dbAdm) :=
  (claim5_invite_errors dbAdm ⟨"b"⟩ "G" ⟨"c@x", "member"⟩ "i7" "t7").1 (by decide)

/-- C6, counterexample: a token for a deleted user does verify (no existence
check), but the downstream lookup in `get_my_invitations` fails with
InternalServerError (HTTP 500), not NotFound (HTTP 404) as the claim
states. -/
theorem claim6_counterexample :
    verify_token "secret" 1000 (create_token "secret" 500 "ghost") =
      .ok ⟨"ghost", 500 + 24 * 3600⟩ ∧
    usersById dbNoUsers "ghost" = none ∧
    get_my_invitations dbNoUsers ⟨"ghost"⟩ = .error .internalServerError ∧
    get_my_invitations dbNoUsers ⟨"ghost"⟩ ≠ .error .notFound := by decide

/-- C6, amended: token verification performs no existence check of the
subject against the user store — a freshly issued unexpired token verifies
for any subject, whatever the store holds — and the downstream user lookup of
`get_my_invitations` on a store missing that subject fails with
InternalServerError. -/
theorem claim6_amended (secret : String) (tissue tnow : Nat) (uid : String)
    (db : Db) (hexp : tnow ≤ tissue + 24 * 3600)
    (habsent : usersById db uid = none) :
    verify_token secret tnow (create_token secret tissue uid) =
      .ok { sub := uid, exp := tissue + 24 * 3600 } ∧
    get_my_invitations db ⟨uid⟩ = .error .internalServerError := by
  constructor
  · have hne : ¬(tissue + 24 * 3600 + 60 < tnow) := by omega
    simp [verify_token, create_token, hne]
  · simp [get_my_invitations, habsent]

/-- C6, witness for the amended theorem at a concrete token and empty user
store. -/
theorem claim6_amended_witness :
    verify_token "secret" 1000 (create_token "secret" 500 "ghost") =
      .ok ⟨"ghost", 500 + 24 * 3600⟩ ∧
    get_my_invitations dbNoUsers ⟨"ghost"⟩ = .error .internalServerError :=
  claim6_amended "secret" 500 1000 "ghost" dbNoUsers (by omega) (by decide)

/-- C7: issue/verify round-trip — verifying a token freshly issued for a
user id, with the same secret and before expiry, succeeds and returns that
user id as the subject claim. -/
theorem claim7_token_roundtrip (secret : String) (tissue tverify : Nat)
    (uid : String) (h : tverify ≤ tissue + 24 * 3600) :
    verify_token secret tverify (create_token secret tissue uid) =
      .ok { sub := uid, exp := tissue + 24 * 3600 } := by
  have hne : ¬(tissue + 24 * 3600 + 60 < tverify) := by omega
  simp [verify_token, create_token, hne]

/-- C7, witness at a concrete secret, times and user id. -/
theorem claim7_witness :
    verify_token "s" 100 (create_token "s" 50 "alice") =
      .ok ⟨"alice", 50 + 24 * 3600⟩ :=
  claim7_token_roundtrip "s" 50 100 "alice" (by omega)

/-- C8: the identity extractor returns Unauthorized when the Authorization
header is absent, when the header does not use the Bearer scheme, and when
the carried token fails verification; and every failure of the extractor is
Unauthorized, so no cause distinction is observable. -/
theorem claim8_extractor (secret : String) (now : Nat) (parts : RequestParts) :
    (parts.authorization = none →
      from_request_parts secret now parts = .error .unauthorized) ∧
    (∀ s, parts.authorization = some (.otherScheme s) →
      from_request_parts secret now parts = .error .unauthorized) ∧
    (∀ tok e, parts.authorization = some (.bearer tok) →
      verify_token secret now tok = .error e →
      from_request_parts secret now parts = .error .unauthorized) ∧
    (∀ e, from_request_parts secret now parts = .error e →
      e = .unauthorized) := by
  obtain ⟨auth⟩ := parts
  refine ⟨?_, ?_, ?_, ?_⟩
  · intro h; subst h; rfl
  · intro s h; subst h; rfl
  · intro tok e h hv; subst h; simp [from_request_parts, hv]
  · intro e he
    cases auth with
    | none => simpa [from_request_parts] using he.symm
    | some hv =>
      cases hv with
      | otherScheme s => simpa [from_request_parts] using he.symm
      | bearer tok =>
        unfold from_request_parts at he
        cases hv2 : verify_token secret now tok <;> simp [hv2] at he
        · exact he.symm

/-- C8, witness: the three failure shapes at concrete requests all yield
Unauthorized. -/
theorem claim8_witness :
    from_request_parts "s" 0 ⟨none⟩ = .error .unauthorized ∧
    from_request_parts "s" 0 ⟨some (.otherScheme "Basic xyz")⟩ = .error .unauthorized ∧
    from_request_parts "s" 0 ⟨some (.bearer (.garbage "zzz"))⟩ = .error .unauthorized :=
  ⟨(claim8_extractor "s" 0 ⟨none⟩).1 rfl,
   (claim8_extractor "s" 0 ⟨some (.otherScheme "Basic xyz")⟩).2.1 "Basic xyz" rfl,
   (claim8_extractor "s" 0 ⟨some (.bearer (.garbage "zzz"))⟩).2.2.1 (.garbage "zzz")
     .malformed rfl (by decide)⟩

/-- C9: in both accept and reject the status precondition is checked before
the invitee-identity precondition — for any existing non-Pending invitation,
any authenticated caller (their email never read) gets BadRequest with the
store unchanged, never Forbidden. -/
theorem claim9_status_before_identity (db : Db) (orac : Nat → Bool)
    (a : AuthUser) (iid mid now : String) (inv : BudgetInvitation)
    (hinv : invitationsById db iid = some inv)
    (hstat : inv.status ≠ "pending") :
    accept_invitation db orac a iid mid now = (.error .badRequest, db) ∧
    reject_invitation db orac a iid = (.error .badRequest, db) := by
  constructor
  · simp [accept_invitation, hinv, hstat]
  · simp [reject_invitation, hinv, hstat]

/-- C9, witness: caller `c`, whose email does not match the invitee email
`b@x` of the already-accepted invitation `i5`, gets BadRequest (not
Forbidden) from both accept and reject. -/
theorem claim9_witness :
    accept_invitation dbNP allOk ⟨"c"⟩ "i5" "m9" "t9" = (.error .badRequest, dbNP) ∧
    reject_invitation dbNP allOk ⟨"c"⟩ "i5" = (.error .badRequest, dbNP) :=
  claim9_status_before_identity dbNP allOk ⟨"c"⟩ "i5" "m9" "t9"
    ⟨"i5", "G", "o", "b@x", "member", "accepted", "t"⟩ (by decide) (by decide)

/-- C10: for a caller holding the exact role "owner" on the budget,
`remove_member` returns 204 No Content, and when the given membership id
matches no row of that budget the store is left entirely unchanged — never
NotFound. -/
theorem claim10_remove_member (db : Db) (a : AuthUser) (bid mid : String)
    (howner : ownerCount db bid a.user_id ≠ 0) :
    (remove_member db allOk a bid mid).1 = .ok .noContent ∧
    ((∀ m ∈ db.budget_members, ¬(m.id = mid ∧ m.budget_id = bid)) →
      (remove_member db allOk a bid mid).2 = db) := by
  have hrun : remove_member db allOk a bid mid =
      (.ok .noContent,
       { db with budget_members := (db.budget_members.filter
           (fun m => ¬(m.id = mid ∧ m.budget_id = bid))) }) := by
    unfold remove_member allOk
    simp [howner]
  refine ⟨by rw [hrun], ?_⟩
  intro h
  rw [hrun]
  have hfil : db.budget_members.filter
      (fun m => ¬(m.id = mid ∧ m.budget_id = bid)) = db.budget_members := by
    apply List.filter_eq_self.mpr
    intro m hm
    exact decide_eq_true (h m hm)
  show ({ db with budget_members := (db.budget_members.filter
      (fun m => ¬(m.id = mid ∧ m.budget_id = bid))) } : Db) = db
  rw [hfil]

/-- C10, witness: Owner `o` removes a membership id matching no row of `G`;
the call returns 204 and `s1` is unchanged. -/
theorem claim10_witness :
    (remove_member s1 allOk ⟨"o"⟩ "G" "zzz").1 = .ok .noContent ∧
    (remove_member s1 allOk ⟨"o"⟩ "G" "zzz").2 = s1 := by
  have h := claim10_remove_member s1 ⟨"o"⟩ "G" "zzz" (by decide)
  exact ⟨h.1, h.2 (by decide)⟩

end TempoBudget
